import Mathlib

/-!
# Verification of the blood-donation backend (Assignment-11-Backend)

Shallow embedding of the Express/MongoDB handlers in `src/index.js`
(which contains two concatenated variants of the server, called `V1`
and `V2` below) and `src/unnamed/part_000` (called `P0` below).

The MongoDB store of each collection is modelled as a `List` of
documents in natural (insertion) order:
* `findOne filter`   — first element satisfying the filter;
* `insertOne doc`    — append at the end;
* `updateOne filter patch` — patch the first element satisfying the
  filter, reporting `matchedCount` (`1` or `0`);
* `countDocuments filter`  — length of the filtered list;
* `sort / skip / limit`    — stable sort, `List.drop`, `List.take`
  (MongoDB applies `skip` before `limit` regardless of chaining order).

Timestamps (`new Date()`) are modelled as `Nat` values passed in by the
caller; Stripe session amounts are integers (minor units) and the
stored payment amount is a rational, matching JavaScript's exact
division for the values of interest.
-/

namespace Backend

/-- A document of the `payment` collection, as built by
`GET /success-payment` in `P0` (the `V1` variant additionally stores a
`currency` field, irrelevant to the claims). -/
structure Payment where
  amount : ℚ
  donorEmail : String
  transactionId : String
  status : String
  paidAt : Nat
  deriving Repr, DecidableEq

/-- The part of a Stripe checkout session read by `GET /success-payment`:
`payment_status`, `amount_total` (integer minor units),
`customer_email` and `payment_intent`. -/
structure StripeSession where
  payment_status : String
  amount_total : Int
  customer_email : String
  payment_intent : String
  deriving Repr, DecidableEq

/-- The Payment document assembled by `GET /success-payment`:
`amount = session.amount_total / 100`, donor email and transaction id
copied from the session, status copied from `payment_status`. -/
def mkPayment (s : StripeSession) (now : Nat) : Payment :=
  { amount := (s.amount_total : ℚ) / 100
    donorEmail := s.customer_email
    transactionId := s.payment_intent
    status := s.payment_status
    paidAt := now }

/-- `paymentCollection.findOne({ transactionId })`. -/
def findTx (st : List Payment) (tx : String) : Option Payment :=
  st.find? (fun p => p.transactionId == tx)

/-- Handler of `GET /success-payment` (identical logic in `P0`, `V1`
and `V2`): retrieve the session; if `payment_status === "paid"`, build
the payment document, look up an existing document with the same
`transactionId`, and insert only when none exists.  The returned `Bool`
records whether the handler sent the `{ success: true }` response (on a
non-paid outcome the code falls through without responding). -/
def successPayment (st : List Payment) (s : StripeSession) (now : Nat) :
    List Payment × Bool :=
  if s.payment_status == "paid" then
    let payment := mkPayment s now
    match findTx st payment.transactionId with
    | some _ => (st, true)
    | none => (st ++ [payment], true)
  else
    (st, false)

/-- Number of Payment documents carrying a given transaction id. -/
def countTx (st : List Payment) (tx : String) : Nat :=
  (st.filter (fun p => p.transactionId == tx)).length

/-- `n` repeated invocations of `GET /success-payment` for the same
session (the timestamp may differ per call). -/
def iterFinalize : Nat → List Payment → StripeSession → Nat → List Payment
  | 0, st, _, _ => st
  | n + 1, st, s, now => iterFinalize n (successPayment st s now).1 s (now + 1)

/-! ## Strings -/

/-- Strip leading and trailing whitespace from a character list. -/
def trimChars (l : List Char) : List Char :=
  ((l.dropWhile Char.isWhitespace).reverse.dropWhile Char.isWhitespace).reverse

/-- JavaScript's `String.prototype.trim()`: remove surrounding
whitespace.  (Defined over the character list so that the kernel can
evaluate it on concrete inputs.) -/
def strTrim (s : String) : String := ⟨trimChars s.data⟩

/-! ## Users -/

/-- A document of the `user` collection.  `name` and `district` stand
for the free profile fields; `role` and `status` are the access-control
fields set by the server. -/
structure User where
  email : String
  name : String
  district : String
  role : String
  status : String
  createdAt : Nat
  deriving Repr, DecidableEq

/-- `userCollection.findOne({ email })`. -/
def findUser (users : List User) (email : String) : Option User :=
  users.find? (fun u => u.email == email)

/-- The body of a `POST /users` call before the server adds its own
fields. -/
structure NewUser where
  email : String
  name : String
  district : String
  deriving Repr, DecidableEq

/-- Response of `POST /users`. -/
inductive CreateUserResult where
  | inserted (u : User)
  | alreadyExists (msg : String)
  deriving Repr, DecidableEq

/-- Handler of `POST /users` in `P0` (and, observably, `V2`): look up an
existing user by email and answer `"User already exists"` without
inserting; otherwise set `role = "donor"`, `status = "active"`,
`createdAt`, and insert. -/
def postUsers (users : List User) (body : NewUser) (now : Nat) :
    List User × CreateUserResult :=
  match findUser users body.email with
  | some _ => (users, .alreadyExists "User already exists")
  | none =>
    let u : User :=
      { email := body.email, name := body.name, district := body.district
        role := "donor", status := "active", createdAt := now }
    (users ++ [u], .inserted u)

/-- Handler of `POST /users` in the `V1` variant (`src/index.js`
lines 72-80): no existence check at all, and `role` is set to
`"admin"` before the unconditional insert. -/
def postUsers_v1 (users : List User) (body : NewUser) (now : Nat) :
    List User × CreateUserResult :=
  let u : User :=
    { email := body.email, name := body.name, district := body.district
      role := "admin", status := "active", createdAt := now }
  (users ++ [u], .inserted u)

/-- Number of users holding a given email. -/
def countEmail (users : List User) (email : String) : Nat :=
  (users.filter (fun u => u.email == email)).length

/-! ## Role guards (`P0` lines 72-111) -/

/-- Outcome of a role middleware: `pass` calls `next()`, `forbidden`
sends a 403 with the given message. -/
inductive GuardResult where
  | pass
  | forbidden (msg : String)
  deriving Repr, DecidableEq

/-- `verifyAdmin`: 403 `"Forbidden"` when the caller is missing or the
role is not `"admin"`; there is no blocked-status check. -/
def verifyAdmin (users : List User) (email : String) : GuardResult :=
  match findUser users email with
  | none => .forbidden "Forbidden"
  | some u => if u.role != "admin" then .forbidden "Forbidden" else .pass

/-- `verifyVolunteer`: 403 `"Volunteer only"` on a missing caller or a
role other than `"volunteer"`, then 403 `"User is blocked"` when
`status === "blocked"`. -/
def verifyVolunteer (users : List User) (email : String) : GuardResult :=
  match findUser users email with
  | none => .forbidden "Volunteer only"
  | some u =>
    if u.role != "volunteer" then .forbidden "Volunteer only"
    else if u.status == "blocked" then .forbidden "User is blocked"
    else .pass

/-- `verifyDonor`: 403 `"Donor only"` on a missing caller or a role
other than `"donor"`, then 403 `"User is blocked"` when
`status === "blocked"`. -/
def verifyDonor (users : List User) (email : String) : GuardResult :=
  match findUser users email with
  | none => .forbidden "Donor only"
  | some u =>
    if u.role != "donor" then .forbidden "Donor only"
    else if u.status == "blocked" then .forbidden "User is blocked"
    else .pass

/-- Express middleware chaining: the wrapped handler (an arbitrary
state transformer over an arbitrary store `σ`) runs only when the guard
called `next()`; a 403 short-circuits and the handler never touches the
store. -/
def runGuarded (guard : List User → String → GuardResult)
    (handler : σ → σ × α) (users : List User) (email : String) (st : σ) :
    σ × Option α :=
  match guard users email with
  | .pass => let r := handler st; (r.1, some r.2)
  | .forbidden _ => (st, none)

/-! ## Profile edit (`PATCH /profile`) -/

/-- A `PATCH /profile` body: a partial user document.  A field that is
absent from the JSON body is `none`. -/
structure ProfilePatch where
  email : Option String
  name : Option String
  district : Option String
  role : Option String
  status : Option String
  deriving Repr, DecidableEq

/-- `$set` of the scrubbed body onto a user document: every field still
present in the body overwrites the stored one. -/
def applyPatch (p : ProfilePatch) (u : User) : User :=
  { u with
    email := p.email.getD u.email
    name := p.name.getD u.name
    district := p.district.getD u.district
    role := p.role.getD u.role
    status := p.status.getD u.status }

/-- `updateOne` on the user collection: patch the first document
matching the filter, report `matchedCount`. -/
def updateUserWhere (p : User → Bool) (f : User → User) :
    List User → List User × Nat
  | [] => ([], 0)
  | u :: us =>
    if p u then (f u :: us, 1)
    else
      let r := updateUserWhere p f us
      (u :: r.1, r.2)

/-- Handler of `PATCH /profile` (identical in `P0`, `V1`, `V2`):
`delete updatedData._id; delete updatedData.email;` then
`updateOne({ email }, { $set: updatedData })` where `email` is the
verified caller identity.  Only `_id` and `email` are scrubbed — the
`role` and `status` fields of the body survive into the `$set`. -/
def patchProfile (users : List User) (caller : String) (body : ProfilePatch) :
    List User × Nat :=
  let scrubbed := { body with email := none }
  updateUserWhere (fun u => u.email == caller) (applyPatch scrubbed) users

/-! ## Donation requests -/

/-- A document of the `requests` collection.  `rid` models the Mongo
`_id`; donor fields are `none` until the request is claimed. -/
structure DonationRequest where
  rid : Nat
  requesterEmail : String
  bloodGroup : String
  district : String
  upazila : String
  status : String
  donorName : Option String
  donorEmail : Option String
  createdAt : Nat
  donatedAt : Option Nat
  deriving Repr, DecidableEq

/-- `requestCollection.findOne({ _id: id })`. -/
def findReq (st : List DonationRequest) (id : Nat) : Option DonationRequest :=
  st.find? (fun r => r.rid == id)

/-- `updateOne` on the request collection: patch the first document
matching the filter, report `matchedCount`. -/
def updateReqWhere (p : DonationRequest → Bool)
    (f : DonationRequest → DonationRequest) :
    List DonationRequest → List DonationRequest × Nat
  | [] => ([], 0)
  | r :: rs =>
    if p r then (f r :: rs, 1)
    else
      let q := updateReqWhere p f rs
      (r :: q.1, q.2)

/-- Donor identity recorded on a request, read back through
`findOne({ _id: id })`. -/
def donorOf (st : List DonationRequest) (id : Nat) : Option String :=
  (findReq st id).bind (fun r => r.donorEmail)

/-! ### Claim (`PATCH /donation-requests/:id`) -/

/-- Response of the claim handler. -/
inductive ClaimResult where
  | ok
  | notAvailable (msg : String)
  deriving Repr, DecidableEq

/-- First storage step of the `P0` claim handler (lines 298-307): a
`findOne` by id followed by the in-memory check
`!request || request.status !== "pending"`. -/
def claimCheck (st : List DonationRequest) (id : Nat) : Bool :=
  match findReq st id with
  | none => false
  | some r => r.status == "pending"

/-- Second storage step of the claim handler (lines 309-319):
`updateOne({ _id: id }, { $set: { status: "inprogress", donorEmail,
donorName, donatedAt } })` — the filter carries no status condition. -/
def claimWrite (st : List DonationRequest) (id : Nat)
    (donorEmail donorName : String) (now : Nat) : List DonationRequest :=
  (updateReqWhere (fun r => r.rid == id)
    (fun r =>
      { r with status := "inprogress", donorEmail := some donorEmail
               donorName := some donorName, donatedAt := some now }) st).1

/-- The `P0` claim handler run in isolation (its two storage steps back
to back): the donor identity written is the verified caller email
`req.decoded_email`. -/
def claimRequest (st : List DonationRequest) (id : Nat)
    (caller donorName : String) (now : Nat) :
    List DonationRequest × ClaimResult :=
  if claimCheck st id then
    (claimWrite st id caller donorName now, .ok)
  else
    (st, .notAvailable "Not available")

/-- The `V1` claim handler (`src/index.js` lines 184-222) run in
isolation: identical read-check-write shape, but the recorded
`donorEmail` is `req.body.donorEmail` — client-supplied.  The verified
caller identity `req.decoded_email` (the first argument after the id)
is never consulted by this handler. -/
def claimRequest_v1 (st : List DonationRequest) (id : Nat)
    (_decodedEmail bodyDonorName bodyDonorEmail : String) (now : Nat) :
    List DonationRequest × ClaimResult :=
  if claimCheck st id then
    (claimWrite st id bodyDonorEmail bodyDonorName now, .ok)
  else
    (st, .notAvailable "This request is already taken")

/-- Two claim attempts executed through an interleaved schedule allowed
by the code: both handlers run their `findOne` against the initial
store before either `updateOne` lands.  Each write still happens only
when that handler's own check passed. -/
def claimInterleaved (st : List DonationRequest) (id : Nat)
    (callerA nameA : String) (tA : Nat) (callerB nameB : String) (tB : Nat) :
    List DonationRequest × ClaimResult × ClaimResult :=
  let okA := claimCheck st id
  let okB := claimCheck st id
  let st1 := if okA then claimWrite st id callerA nameA tA else st
  let st2 := if okB then claimWrite st1 id callerB nameB tB else st1
  (st2,
   (if okA then .ok else .notAvailable "Not available"),
   (if okB then .ok else .notAvailable "Not available"))

/-! ### Requester status update (`PATCH /requests/status/:id`) -/

/-- Response of the status-update handler: either the 400 for a status
outside `{done, canceled}`, or the `updateOne` result with its
`matchedCount`. -/
inductive StatusResult where
  | invalidStatus
  | updated (matchedCount : Nat)
  deriving Repr, DecidableEq

/-- Handler of `PATCH /requests/status/:id` in `V2` (`src/index.js`
lines 545-562): reject a status outside `["done", "canceled"]` with 400,
then `updateOne({ _id, requesterEmail: decoded_email.trim(),
status: "inprogress" }, { $set: { status } })`. -/
def updateRequestStatus (st : List DonationRequest) (id : Nat)
    (caller bodyStatus : String) : List DonationRequest × StatusResult :=
  if !(["done", "canceled"].contains bodyStatus) then
    (st, .invalidStatus)
  else
    let r := updateReqWhere
      (fun r => r.rid == id && r.requesterEmail == strTrim caller
                && r.status == "inprogress")
      (fun r => { r with status := bodyStatus }) st
    (r.1, .updated r.2)

/-- Handler of `PATCH /requests/status/:id` in `P0` (lines 327-344): no
whitelist on the body status, and the `updateOne` filter carries only
the id and the requester identity — no `status: "inprogress"`
condition. -/
def updateRequestStatus_p0 (st : List DonationRequest) (id : Nat)
    (caller bodyStatus : String) : List DonationRequest × StatusResult :=
  let r := updateReqWhere
    (fun r => r.rid == id && r.requesterEmail == caller)
    (fun r => { r with status := bodyStatus }) st
  (r.1, .updated r.2)

/-! ### Paged listing (`GET /my-requests`) -/

/-- Insert a request into a list already sorted by `createdAt`
descending, after every element created no earlier — the stable order a
Mongo `sort({ createdAt: -1 })` returns for the natural-order input. -/
def insertDesc (r : DonationRequest) :
    List DonationRequest → List DonationRequest
  | [] => [r]
  | q :: qs =>
    if q.createdAt < r.createdAt then r :: q :: qs else q :: insertDesc r qs

/-- `sort({ createdAt: -1 })`: stable insertion sort by creation time
descending. -/
def sortDesc : List DonationRequest → List DonationRequest
  | [] => []
  | r :: rs => insertDesc r (sortDesc rs)

/-- Handler of `GET /my-requests` in `P0` (lines 210-226):
filter by `requesterEmail = ` the verified caller email, sort by
`createdAt` descending, `skip(size * (page - 1))`, `limit(size)`, and a
`countDocuments` over the same filter.  Returns `(requests, total)`. -/
def myRequests (st : List DonationRequest) (email : String)
    (page size : Nat) : List DonationRequest × Nat :=
  let query := st.filter (fun r => r.requesterEmail == email)
  (((sortDesc query).drop (size * (page - 1))).take size, query.length)

/-- Handler of `GET /my-requests` in `V1` (`src/index.js`
lines 121-137): same filter, skip, limit and count, but the cursor is
never sorted — documents come back in natural (insertion) order. -/
def myRequests_v1 (st : List DonationRequest) (email : String)
    (page size : Nat) : List DonationRequest × Nat :=
  let query := st.filter (fun r => r.requesterEmail == email)
  ((query.drop (size * (page - 1))).take size, query.length)

/-! ### Public search (`GET /search-requests`) -/

/-- JavaScript truthiness of an optional query-string field: present
and non-empty. -/
def truthy : Option String → Bool
  | none => false
  | some s => s ≠ ""

/-- Handler of `GET /search-requests` in `V1` and `V2`
(`src/index.js` lines 139-149): a truthy `bloodGroup` contributes the
equality `bloodGroup = bloodGroup.trim()`, a truthy `district` or
`upazila` contributes an equality on the raw value — only the blood
group is trimmed. -/
def searchRequests (st : List DonationRequest)
    (bloodGroup district upazila : Option String) : List DonationRequest :=
  st.filter (fun r =>
    (if truthy bloodGroup then r.bloodGroup == strTrim (bloodGroup.getD "")
     else true)
    && (if truthy district then r.district == district.getD "" else true)
    && (if truthy upazila then r.upazila == upazila.getD "" else true))

/-- Handler of `GET /search-requests` in `P0` (lines 264-274): same
shape, but no field at all is trimmed. -/
def searchRequests_p0 (st : List DonationRequest)
    (bloodGroup district upazila : Option String) : List DonationRequest :=
  st.filter (fun r =>
    (if truthy bloodGroup then r.bloodGroup == bloodGroup.getD "" else true)
    && (if truthy district then r.district == district.getD "" else true)
    && (if truthy upazila then r.upazila == upazila.getD "" else true))

/-! ## Helper lemmas -/

lemma countTx_append (st l : List Payment) (tx : String) :
    countTx (st ++ l) tx = countTx st tx + countTx l tx := by
  simp [countTx, List.filter_append]

lemma countTx_eq_zero_of_findTx_none (st : List Payment) (tx : String)
    (h : findTx st tx = none) : countTx st tx = 0 := by
  simp only [findTx, List.find?_eq_none] at h
  simp only [countTx, List.length_eq_zero, List.filter_eq_nil_iff]
  exact h

lemma successPayment_count_le (st : List Payment) (s : StripeSession)
    (now : Nat) (tx : String) (h : countTx st tx ≤ 1) :
    countTx (successPayment st s now).1 tx ≤ 1 := by
  unfold successPayment
  cases hpb : (s.payment_status == "paid") with
  | false => simpa [hpb] using h
  | true =>
    simp only [hpb, if_true]
    cases hf : findTx st (mkPayment s now).transactionId with
    | some p => simpa using h
    | none =>
      simp only []
      rw [countTx_append]
      cases htx : ((mkPayment s now).transactionId == tx) with
      | false =>
        have : countTx [mkPayment s now] tx = 0 := by
          simp [countTx, htx]
        omega
      | true =>
        have htx' : (mkPayment s now).transactionId = tx := by
          simpa [beq_iff_eq] using htx
        have h0 : countTx st tx = 0 :=
          countTx_eq_zero_of_findTx_none st tx (htx' ▸ hf)
        have h1 : countTx [mkPayment s now] tx ≤ 1 := by
          simp [countTx, htx]
        omega

lemma iterFinalize_count_le (n : Nat) (st : List Payment)
    (s : StripeSession) (now : Nat) (tx : String) (h : countTx st tx ≤ 1) :
    countTx (iterFinalize n st s now) tx ≤ 1 := by
  induction n generalizing st now with
  | zero => simpa [iterFinalize] using h
  | succ n ih =>
    simp only [iterFinalize]
    exact ih _ _ (successPayment_count_le st s now tx h)

lemma successPayment_inserts_iff (st : List Payment) (s : StripeSession)
    (now : Nat) :
    (successPayment st s now).1 = st ++ [mkPayment s now]
      ↔ s.payment_status = "paid" ∧ findTx st s.payment_intent = none := by
  have hlen : ∀ (l : List Payment) (p : Payment), l ≠ l ++ [p] := by
    intro l p h
    have := congrArg List.length h
    simp at this
  unfold successPayment
  cases hpb : (s.payment_status == "paid") with
  | false =>
    have hps : ¬ s.payment_status = "paid" := by
      simpa [beq_iff_eq] using (by simp [hpb] : ¬ (s.payment_status == "paid") = true)
    simp only [hpb, if_false]
    exact ⟨fun h => absurd h (hlen st _), fun h => absurd h.1 hps⟩
  | true =>
    have hps : s.payment_status = "paid" := by simpa [beq_iff_eq] using hpb
    simp only [hpb, if_true]
    cases hf : findTx st (mkPayment s now).transactionId with
    | some p =>
      have hf' : findTx st s.payment_intent = some p := hf
      simp only []
      exact ⟨fun h => absurd h (hlen st _), fun h => by
        rw [hf'] at h; exact absurd h.2 (by simp)⟩
    | none =>
      have hf' : findTx st s.payment_intent = none := hf
      exact ⟨fun _ => ⟨hps, hf'⟩, fun _ => rfl⟩

lemma successPayment_unpaid (st : List Payment) (s : StripeSession)
    (now : Nat) (h : s.payment_status ≠ "paid") :
    (successPayment st s now).1 = st := by
  unfold successPayment
  simp [beq_iff_eq, h]

lemma successPayment_cases (st : List Payment) (s : StripeSession)
    (now : Nat) :
    (successPayment st s now).1 = st
      ∨ (successPayment st s now).1 = st ++ [mkPayment s now] := by
  unfold successPayment
  cases hpb : (s.payment_status == "paid") with
  | false => simp [hpb]
  | true =>
    simp only [hpb, if_true]
    cases hf : findTx st (mkPayment s now).transactionId with
    | some p => simp
    | none => simp

/-! ## Claim theorems: payments (C2, C8) -/

/-- **C2**: `GET /success-payment` inserts a Payment iff the session
reports `"paid"` and no Payment with that transaction id exists;
any run leaves the store unchanged or appends that single record;
an unpaid outcome inserts nothing; and starting from a store holding at
most one record for the session's transaction id, any number of
repeated invocations still leaves at most one. -/
theorem successPayment_idempotent (st : List Payment) (s : StripeSession)
    (now : Nat) :
    ((successPayment st s now).1 = st ++ [mkPayment s now]
      ↔ s.payment_status = "paid" ∧ findTx st s.payment_intent = none)
    ∧ ((successPayment st s now).1 = st
      ∨ (successPayment st s now).1 = st ++ [mkPayment s now])
    ∧ (s.payment_status ≠ "paid" → (successPayment st s now).1 = st)
    ∧ (countTx st s.payment_intent ≤ 1 →
        ∀ n, countTx (iterFinalize n st s now) s.payment_intent ≤ 1) :=
  ⟨successPayment_inserts_iff st s now,
   successPayment_cases st s now,
   successPayment_unpaid st s now,
   fun h n => iterFinalize_count_le n st s now s.payment_intent h⟩

/-- A concrete paid Stripe session: 2500 minor units from
`alice@mail.com`, transaction `pi_1`. -/
def sessA : StripeSession :=
  { payment_status := "paid", amount_total := 2500
    customer_email := "alice@mail.com", payment_intent := "pi_1" }

/-- Witness for **C2** at the concrete session `sessA` on the empty
store: three repeated invocations leave at most one record for
`pi_1`. -/
theorem successPayment_idempotent_witness :
    countTx (iterFinalize 3 [] sessA 0) sessA.payment_intent ≤ 1 :=
  (successPayment_idempotent [] sessA 0).2.2.2 (by decide) 3

/-- **C8**: on a paid session whose transaction id is new, the handler
appends exactly one Payment whose stored amount times 100 recovers the
provider-reported minor-unit amount, i.e. the stored amount is the
provider amount divided by 100. -/
theorem successPayment_amount (st : List Payment) (s : StripeSession)
    (now : Nat) (hp : s.payment_status = "paid")
    (hn : findTx st s.payment_intent = none) :
    ∃ p : Payment, (successPayment st s now).1 = st ++ [p]
      ∧ p.amount * 100 = (s.amount_total : ℚ)
      ∧ p.amount = (s.amount_total : ℚ) / 100
      ∧ p.donorEmail = s.customer_email
      ∧ p.transactionId = s.payment_intent := by
  refine ⟨mkPayment s now, ?_, ?_, rfl, rfl, rfl⟩
  · exact (successPayment_inserts_iff st s now).mpr ⟨hp, hn⟩
  · show (s.amount_total : ℚ) / 100 * 100 = (s.amount_total : ℚ)
    exact div_mul_cancel₀ _ (by norm_num)

/-- Witness for **C8**: the session `sessA` (provider amount 2500) on
the empty store stores an amount `a` with `a * 100 = 2500`, i.e.
`a = 25`. -/
theorem successPayment_amount_witness :
    ∃ p : Payment, (successPayment [] sessA 0).1 = [] ++ [p]
      ∧ p.amount * 100 = (sessA.amount_total : ℚ)
      ∧ p.amount = (sessA.amount_total : ℚ) / 100
      ∧ p.donorEmail = sessA.customer_email
      ∧ p.transactionId = sessA.payment_intent :=
  successPayment_amount [] sessA 0 rfl rfl

/-! ## Claim theorems: users and guards (C4, C5, C6) -/

/-- **C4**: for a caller resolved to a stored user, the donor-only and
volunteer-only guards pass exactly when the role matches and the status
is not blocked (so they reject on any role mismatch or blocked status),
the admin guard passes exactly when the role is admin regardless of
status (a blocked admin passes), and any failing guard short-circuits:
the wrapped handler never runs, leaving any store untouched. -/
theorem guards_role_status (users : List User) (email : String) (u : User)
    (hu : findUser users email = some u) :
    (verifyDonor users email = .pass ↔
      (u.role = "donor" ∧ u.status ≠ "blocked"))
    ∧ (verifyVolunteer users email = .pass ↔
      (u.role = "volunteer" ∧ u.status ≠ "blocked"))
    ∧ (verifyAdmin users email = .pass ↔ u.role = "admin")
    ∧ (∀ (σ α : Type) (g : List User → String → GuardResult)
        (handler : σ → σ × α) (st : σ), g users email ≠ .pass →
          runGuarded g handler users email st = (st, none)) := by
  refine ⟨?_, ?_, ?_, ?_⟩
  · unfold verifyDonor
    rw [hu]
    by_cases h1 : u.role = "donor"
    · by_cases h2 : u.status = "blocked"
      · simp [h1, h2]
      · simp [h1, h2]
    · simp [h1]
  · unfold verifyVolunteer
    rw [hu]
    by_cases h1 : u.role = "volunteer"
    · by_cases h2 : u.status = "blocked"
      · simp [h1, h2]
      · simp [h1, h2]
    · simp [h1]
  · unfold verifyAdmin
    rw [hu]
    by_cases h1 : u.role = "admin"
    · simp [h1]
    · simp [h1]
  · intro σ α g handler st hg
    unfold runGuarded
    cases hgr : g users email with
    | pass => exact absurd hgr hg
    | forbidden m => rfl

/-- An active donor account. -/
def donorAlice : User :=
  { email := "alice@x.com", name := "Alice", district := "Dhaka"
    role := "donor", status := "active", createdAt := 0 }

/-- A blocked admin account. -/
def adminBlocked : User :=
  { email := "root@x.com", name := "Root", district := "Dhaka"
    role := "admin", status := "blocked", createdAt := 0 }

/-- Witness for **C4** on a concrete two-user store: the active donor
passes the donor guard but not the others, and the blocked admin still
passes the admin guard. -/
theorem guards_role_status_witness :
    (verifyDonor [donorAlice, adminBlocked] "alice@x.com" = .pass ↔
      (donorAlice.role = "donor" ∧ donorAlice.status ≠ "blocked"))
    ∧ (verifyVolunteer [donorAlice, adminBlocked] "alice@x.com" = .pass ↔
      (donorAlice.role = "volunteer" ∧ donorAlice.status ≠ "blocked"))
    ∧ (verifyAdmin [donorAlice, adminBlocked] "alice@x.com" = .pass ↔
      donorAlice.role = "admin")
    ∧ (∀ (σ α : Type) (g : List User → String → GuardResult)
        (handler : σ → σ × α) (st : σ),
          g [donorAlice, adminBlocked] "alice@x.com" ≠ .pass →
          runGuarded g handler [donorAlice, adminBlocked] "alice@x.com" st
            = (st, none)) :=
  guards_role_status [donorAlice, adminBlocked] "alice@x.com" donorAlice rfl

lemma countEmail_append (users l : List User) (e : String) :
    countEmail (users ++ l) e = countEmail users e + countEmail l e := by
  simp [countEmail, List.filter_append]

lemma countEmail_eq_zero_of_findUser_none (users : List User) (e : String)
    (h : findUser users e = none) : countEmail users e = 0 := by
  simp only [findUser, List.find?_eq_none] at h
  simp only [countEmail, List.length_eq_zero, List.filter_eq_nil_iff]
  exact h

/-- **C5** (amended): in the `P0` variant of `POST /users`, a fresh
email is inserted with role `donor` and status `active`; an existing
email is a no-op answering a fixed already-exists message (not the
stored record); and if no email is duplicated before the call, none is
after it. -/
theorem postUsers_spec (users : List User) (body : NewUser) (now : Nat) :
    (findUser users body.email = none →
      postUsers users body now
        = (users ++ [{ email := body.email, name := body.name
                       district := body.district, role := "donor"
                       status := "active", createdAt := now }],
           .inserted { email := body.email, name := body.name
                       district := body.district, role := "donor"
                       status := "active", createdAt := now }))
    ∧ (∀ u, findUser users body.email = some u →
        postUsers users body now = (users, .alreadyExists "User already exists"))
    ∧ ((∀ e, countEmail users e ≤ 1) →
        ∀ e, countEmail (postUsers users body now).1 e ≤ 1) := by
  refine ⟨?_, ?_, ?_⟩
  · intro h
    unfold postUsers
    rw [h]
  · intro u h
    unfold postUsers
    rw [h]
  · intro hall e
    unfold postUsers
    cases hf : findUser users body.email with
    | some u => simpa using hall e
    | none =>
      simp only []
      rw [countEmail_append]
      cases he : (body.email == e) with
      | false =>
        have : countEmail [{ email := body.email, name := body.name
                             district := body.district, role := "donor"
                             status := "active", createdAt := now }] e = 0 := by
          simp [countEmail, he]
        have := hall e
        omega
      | true =>
        have he' : body.email = e := by simpa [beq_iff_eq] using he
        have h0 : countEmail users e = 0 :=
          countEmail_eq_zero_of_findUser_none users e (he' ▸ hf)
        have h1 : countEmail [{ email := body.email, name := body.name
                                district := body.district, role := "donor"
                                status := "active", createdAt := now }] e ≤ 1 := by
          simp [countEmail, he]
        omega

/-- A fresh sign-up body. -/
def bodyCarol : NewUser :=
  { email := "carol@x.com", name := "Carol", district := "Sylhet" }

/-- Witness for **C5**: creating `carol@x.com` on the empty store
inserts her with role `donor` and status `active`. -/
theorem postUsers_spec_witness :
    postUsers [] bodyCarol 7
      = ([] ++ [{ email := bodyCarol.email, name := bodyCarol.name
                  district := bodyCarol.district, role := "donor"
                  status := "active", createdAt := 7 }],
         .inserted { email := bodyCarol.email, name := bodyCarol.name
                     district := bodyCarol.district, role := "donor"
                     status := "active", createdAt := 7 }) :=
  (postUsers_spec [] bodyCarol 7).1 rfl

/-- Counterexample for **C5** as stated: the `V1` variant of
`POST /users` (`src/index.js` lines 72-80) assigns role `admin`, not
`donor`, to a fresh sign-up; a second call with the same email inserts
again, leaving two user records sharing one email; and even in the `P0`
variant a duplicate call answers a fixed message rather than the
existing record. -/
theorem postUsers_refuted :
    ((postUsers_v1 [] bodyCarol 0).1.map (fun u => u.role) = ["admin"])
    ∧ countEmail (postUsers_v1 (postUsers_v1 [] bodyCarol 0).1 bodyCarol 1).1
        "carol@x.com" = 2
    ∧ (postUsers (postUsers [] bodyCarol 0).1 bodyCarol 1).2
        = .alreadyExists "User already exists" := by
  decide

/-- A `PATCH /profile` body that tries to change the identity and the
access-control fields. -/
def escalationPatch : ProfilePatch :=
  { email := some "other@x.com", name := some "Alice M."
    district := none, role := some "admin", status := some "blocked" }

/-- **C6** fails on the code: `PATCH /profile` scrubs only `_id` and
`email` from the body before the `$set`, so a body carrying `role` or
`status` rewrites those fields.  On the store `[donorAlice]` the caller
`alice@x.com` turns herself into a (blocked) admin, while her email is
indeed preserved — the identity field is protected, the role/status
fields are not. -/
theorem patchProfile_escalates :
    (patchProfile [donorAlice] "alice@x.com" escalationPatch).1
      = [{ email := "alice@x.com", name := "Alice M.", district := "Dhaka"
           role := "admin", status := "blocked", createdAt := 0 }]
    ∧ donorAlice.role = "donor" ∧ donorAlice.status = "active"
    ∧ ((patchProfile [donorAlice] "alice@x.com" escalationPatch).1.map
        (fun u => u.email) = [donorAlice.email]) := by
  decide

/-! ## Helper lemmas on the request store -/

lemma updateReqWhere_no_match (p : DonationRequest → Bool)
    (f : DonationRequest → DonationRequest) (st : List DonationRequest)
    (h : ∀ r ∈ st, ¬ p r = true) : updateReqWhere p f st = (st, 0) := by
  induction st with
  | nil => rfl
  | cons r rs ih =>
    have hr : ¬ p r = true := h r (by simp)
    have hrs := ih (fun q hq => h q (by simp [hq]))
    simp [updateReqWhere, hr, hrs]

lemma updateReqWhere_snd (p : DonationRequest → Bool)
    (f : DonationRequest → DonationRequest) (st : List DonationRequest) :
    (updateReqWhere p f st).2 = if st.any p then 1 else 0 := by
  induction st with
  | nil => rfl
  | cons r rs ih =>
    cases h : p r with
    | true => simp [updateReqWhere, h]
    | false => simp [updateReqWhere, h, ih]

lemma findReq_updateReqWhere (st : List DonationRequest) (id : Nat)
    (f : DonationRequest → DonationRequest) (hf : ∀ r, (f r).rid = r.rid) :
    findReq (updateReqWhere (fun r => r.rid == id) f st).1 id
      = (findReq st id).map f := by
  induction st with
  | nil => rfl
  | cons r rs ih =>
    cases hpr : (r.rid == id) with
    | true =>
      have h2 : ((f r).rid == id) = true := by rw [hf]; exact hpr
      simp [updateReqWhere, findReq, List.find?, hpr, h2]
    | false =>
      simp only [updateReqWhere, hpr, Bool.false_eq_true, if_false]
      simp only [findReq, List.find?, hpr] at ih ⊢
      exact ih

lemma claimCheck_iff (st : List DonationRequest) (id : Nat) :
    claimCheck st id = true
      ↔ ∃ r, findReq st id = some r ∧ r.status = "pending" := by
  unfold claimCheck
  cases h : findReq st id with
  | none => simp
  | some r => simp [beq_iff_eq]

/-! ## Claim theorems: the claim transition (C1, C10) -/

/-- An open (pending, unclaimed) request by `alice@x.com`. -/
def reqPending : DonationRequest :=
  { rid := 1, requesterEmail := "alice@x.com", bloodGroup := "A+"
    district := "Dhaka", upazila := "Savar", status := "pending"
    donorName := none, donorEmail := none, createdAt := 0
    donatedAt := none }

/-- Counterexample for **C1** as stated: the status check of
`PATCH /donation-requests/:id` happens on the `findOne` result and the
`updateOne` filter carries only the id, so in the interleaving where
both handlers read before either writes, two claim attempts by the
distinct callers `alice@x.com` and `bob@x.com` on one pending request
both report success, and the recorded donor identity is the second
writer's — not exactly one transition and one rejection. -/
theorem claim_race_refuted :
    (claimInterleaved [reqPending] 1 "alice@x.com" "Alice" 5
        "bob@x.com" "Bob" 6).2.1 = .ok
    ∧ (claimInterleaved [reqPending] 1 "alice@x.com" "Alice" 5
        "bob@x.com" "Bob" 6).2.2 = .ok
    ∧ donorOf (claimInterleaved [reqPending] 1 "alice@x.com" "Alice" 5
        "bob@x.com" "Bob" 6).1 1 = some "bob@x.com"
    ∧ reqPending.status = "pending" := by
  decide

/-- **C1** (amended): run serially, a claim of a pending request
succeeds, moves it to `inprogress` and records the first caller as
donor, and a second claim attempt is rejected as already taken and
changes nothing — the exactly-one-winner property holds only for
serialized executions, the conditional check being read-time rather
than part of the update. -/
theorem claim_serialized (st : List DonationRequest) (id : Nat)
    (cA nA : String) (tA : Nat) (cB nB : String) (tB : Nat)
    (h : claimCheck st id = true) :
    (claimRequest st id cA nA tA).2 = .ok
    ∧ (claimRequest (claimRequest st id cA nA tA).1 id cB nB tB).2
        = .notAvailable "Not available"
    ∧ (claimRequest (claimRequest st id cA nA tA).1 id cB nB tB).1
        = (claimRequest st id cA nA tA).1
    ∧ donorOf (claimRequest st id cA nA tA).1 id = some cA
    ∧ (findReq (claimRequest st id cA nA tA).1 id).map (fun r => r.status)
        = some "inprogress" := by
  obtain ⟨r, hr, hp⟩ := (claimCheck_iff st id).mp h
  have h1 : claimRequest st id cA nA tA = (claimWrite st id cA nA tA, .ok) := by
    simp [claimRequest, h]
  have hfind : findReq (claimWrite st id cA nA tA) id
      = some { r with status := "inprogress", donorEmail := some cA
                      donorName := some nA, donatedAt := some tA } := by
    unfold claimWrite
    rw [findReq_updateReqWhere st id
      (fun q => { q with status := "inprogress", donorEmail := some cA
                         donorName := some nA, donatedAt := some tA })
      (fun q => rfl), hr]
    rfl
  have hcheck2 : claimCheck (claimWrite st id cA nA tA) id = false := by
    unfold claimCheck
    rw [hfind]
    show ("inprogress" == "pending") = false
    decide
  refine ⟨by simp [claimRequest, h], ?_, ?_, ?_, ?_⟩
  · simp [claimRequest, h, hcheck2]
  · simp [claimRequest, h, hcheck2]
  · simp [claimRequest, h, donorOf, hfind]
  · simp [claimRequest, h, hfind]

/-- Witness for **C1** (amended) on the concrete one-request store:
Alice's claim wins, Bob's serialized claim is rejected without effect,
and Alice is the recorded donor. -/
theorem claim_serialized_witness :
    (claimRequest [reqPending] 1 "alice@x.com" "Alice" 5).2 = .ok
    ∧ (claimRequest (claimRequest [reqPending] 1 "alice@x.com" "Alice" 5).1
        1 "bob@x.com" "Bob" 6).2 = .notAvailable "Not available"
    ∧ (claimRequest (claimRequest [reqPending] 1 "alice@x.com" "Alice" 5).1
        1 "bob@x.com" "Bob" 6).1
        = (claimRequest [reqPending] 1 "alice@x.com" "Alice" 5).1
    ∧ donorOf (claimRequest [reqPending] 1 "alice@x.com" "Alice" 5).1 1
        = some "alice@x.com"
    ∧ (findReq (claimRequest [reqPending] 1 "alice@x.com" "Alice" 5).1 1).map
        (fun r => r.status) = some "inprogress" :=
  claim_serialized [reqPending] 1 "alice@x.com" "Alice" 5 "bob@x.com" "Bob" 6 rfl

/-- Counterexample for **C10** as stated: in the `V1` claim handler the
recorded donor email comes from the request body, so the authenticated
caller `alice@x.com` can register `mallory@x.com` as the claiming
donor. -/
theorem claimRequest_v1_refuted :
    (claimRequest_v1 [reqPending] 1 "alice@x.com" "Mallory"
        "mallory@x.com" 5).2 = .ok
    ∧ donorOf (claimRequest_v1 [reqPending] 1 "alice@x.com" "Mallory"
        "mallory@x.com" 5).1 1 = some "mallory@x.com"
    ∧ ("mallory@x.com" : String) ≠ "alice@x.com" := by
  decide

/-- **C10** (amended): in the `P0` claim handler the donor identity
recorded by a successful claim is exactly the verified caller email. -/
theorem claimRequest_records_caller (st : List DonationRequest) (id : Nat)
    (caller name : String) (now : Nat)
    (h : (claimRequest st id caller name now).2 = .ok) :
    donorOf (claimRequest st id caller name now).1 id = some caller := by
  by_cases hc : claimCheck st id = true
  · obtain ⟨r, hr, hp⟩ := (claimCheck_iff st id).mp hc
    simp only [claimRequest, hc, if_true, donorOf]
    unfold claimWrite
    rw [findReq_updateReqWhere st id
      (fun q => { q with status := "inprogress", donorEmail := some caller
                         donorName := some name, donatedAt := some now })
      (fun q => rfl), hr]
    rfl
  · exfalso
    simp [claimRequest, hc] at h

/-- Witness for **C10** (amended): Alice's successful claim records
`alice@x.com` as the donor. -/
theorem claimRequest_records_caller_witness :
    donorOf (claimRequest [reqPending] 1 "alice@x.com" "Alice" 5).1 1
      = some "alice@x.com" :=
  claimRequest_records_caller [reqPending] 1 "alice@x.com" "Alice" 5 rfl

/-! ## Claim theorems: requester status update (C3) -/

/-- Counterexample for **C3** as stated: the `P0` variant of
`PATCH /requests/status/:id` matches on id + requester identity only.
On a store holding Alice's request in `pending` state — not
`inprogress` — her update to `done` matches one document and rewrites
the store, instead of matching zero documents and leaving every request
unchanged; the handler even applies the out-of-vocabulary status
`"weird"`. -/
theorem updateRequestStatus_p0_refuted :
    (updateRequestStatus_p0 [reqPending] 1 "alice@x.com" "done").2
      = .updated 1
    ∧ (updateRequestStatus_p0 [reqPending] 1 "alice@x.com" "done").1
      = [{ reqPending with status := "done" }]
    ∧ reqPending.status ≠ "inprogress"
    ∧ (updateRequestStatus_p0 [reqPending] 1 "alice@x.com" "weird").1
      = [{ reqPending with status := "weird" }] := by
  decide

/-- **C3** (amended): the `V2` variant of `PATCH /requests/status/:id`
behaves as claimed — a body status outside `{done, canceled}` is
rejected up front without touching the store; with a whitelisted status
the update is conditioned on id, stored requester identity equal to the
(trimmed) caller identity, and current status `inprogress`, so that a
mismatch on any of the three matches zero documents and leaves the
store unchanged, and exactly a store containing such a matching request
yields `matchedCount` 1. -/
theorem updateRequestStatus_spec (st : List DonationRequest) (id : Nat)
    (caller bodyStatus : String) :
    (bodyStatus ≠ "done" ∧ bodyStatus ≠ "canceled" →
      updateRequestStatus st id caller bodyStatus = (st, .invalidStatus))
    ∧ ((bodyStatus = "done" ∨ bodyStatus = "canceled") →
        (∀ r ∈ st, ¬(r.rid = id ∧ r.requesterEmail = strTrim caller
            ∧ r.status = "inprogress")) →
        updateRequestStatus st id caller bodyStatus = (st, .updated 0))
    ∧ ((bodyStatus = "done" ∨ bodyStatus = "canceled") →
        ((updateRequestStatus st id caller bodyStatus).2 = .updated 1 ↔
          ∃ r ∈ st, r.rid = id ∧ r.requesterEmail = strTrim caller
            ∧ r.status = "inprogress")) := by
  have hpred : ∀ r : DonationRequest,
      ((r.rid == id && r.requesterEmail == strTrim caller
        && r.status == "inprogress") = true)
      ↔ (r.rid = id ∧ r.requesterEmail = strTrim caller
        ∧ r.status = "inprogress") := by
    intro r
    simp [Bool.and_eq_true, beq_iff_eq, and_assoc]
  have hred : ∀ hcont : (["done", "canceled"].contains bodyStatus) = true,
      updateRequestStatus st id caller bodyStatus
        = ((updateReqWhere (fun r => r.rid == id
              && r.requesterEmail == strTrim caller
              && r.status == "inprogress")
            (fun r => { r with status := bodyStatus }) st).1,
           .updated ((updateReqWhere (fun r => r.rid == id
              && r.requesterEmail == strTrim caller
              && r.status == "inprogress")
            (fun r => { r with status := bodyStatus }) st).2)) := by
    intro hcont
    unfold updateRequestStatus
    rw [hcont]
    rfl
  refine ⟨?_, ?_, ?_⟩
  · intro hbad
    have hcontf : (["done", "canceled"].contains bodyStatus) = false := by
      simp [hbad.1, hbad.2]
    unfold updateRequestStatus
    rw [hcontf]
    rfl
  · intro hok hnone
    have hcont : (["done", "canceled"].contains bodyStatus) = true := by
      rcases hok with rfl | rfl <;> decide
    rw [hred hcont]
    have hnm := updateReqWhere_no_match
      (fun r => r.rid == id && r.requesterEmail == strTrim caller
        && r.status == "inprogress")
      (fun r => { r with status := bodyStatus }) st
      (fun r hr => by
        rw [hpred r]
        exact hnone r hr)
    rw [hnm]
  · intro hok
    have hcont : (["done", "canceled"].contains bodyStatus) = true := by
      rcases hok with rfl | rfl <;> decide
    rw [hred hcont]
    rw [updateReqWhere_snd]
    cases hany : st.any (fun r => r.rid == id
        && r.requesterEmail == strTrim caller && r.status == "inprogress") with
    | true =>
      simp only [hany, if_true]
      rw [List.any_eq_true] at hany
      obtain ⟨r, hrmem, hrp⟩ := hany
      exact ⟨fun _ => ⟨r, hrmem, (hpred r).mp hrp⟩, fun _ => trivial⟩
    | false =>
      simp only [hany, Bool.false_eq_true, if_false]
      constructor
      · intro hcontr
        exact absurd hcontr (by simp)
      · intro hex
        obtain ⟨r, hrmem, hrp⟩ := hex
        rw [List.any_eq_false] at hany
        exact absurd ((hpred r).mpr hrp) (hany r hrmem)

/-- Witness for **C3** (amended): on the store holding only Alice's
`pending` request, her `done` update matches zero documents and leaves
the store unchanged — the current status is not `inprogress`. -/
theorem updateRequestStatus_spec_witness :
    updateRequestStatus [reqPending] 1 "alice@x.com" "done"
      = ([reqPending], .updated 0) :=
  (updateRequestStatus_spec [reqPending] 1 "alice@x.com" "done").2.1
    (Or.inl rfl) (by decide)

/-! ## Helper lemmas on sorting and paging -/

lemma insertDesc_perm (r : DonationRequest) (l : List DonationRequest) :
    List.Perm (insertDesc r l) (r :: l) := by
  induction l with
  | nil => exact List.Perm.refl _
  | cons q qs ih =>
    by_cases h : q.createdAt < r.createdAt
    · rw [insertDesc, if_pos h]
    · rw [insertDesc, if_neg h]
      exact (List.Perm.cons q ih).trans (List.Perm.swap r q qs)

lemma sortDesc_perm (l : List DonationRequest) :
    List.Perm (sortDesc l) l := by
  induction l with
  | nil => exact List.Perm.refl _
  | cons r rs ih => exact (insertDesc_perm r (sortDesc rs)).trans (List.Perm.cons r ih)

lemma mem_insertDesc (b r : DonationRequest) (l : List DonationRequest) :
    b ∈ insertDesc r l ↔ b = r ∨ b ∈ l := by
  rw [(insertDesc_perm r l).mem_iff, List.mem_cons]

lemma insertDesc_sorted (r : DonationRequest) (l : List DonationRequest)
    (h : l.Pairwise (fun a b => b.createdAt ≤ a.createdAt)) :
    (insertDesc r l).Pairwise (fun a b => b.createdAt ≤ a.createdAt) := by
  induction l with
  | nil => simp [insertDesc]
  | cons q qs ih =>
    rw [List.pairwise_cons] at h
    obtain ⟨hq, hqs⟩ := h
    by_cases hc : q.createdAt < r.createdAt
    · rw [insertDesc, if_pos hc]
      refine List.pairwise_cons.mpr ⟨?_, List.pairwise_cons.mpr ⟨hq, hqs⟩⟩
      intro b hb
      rcases List.mem_cons.mp hb with rfl | hb2
      · exact Nat.le_of_lt hc
      · exact Nat.le_trans (hq b hb2) (Nat.le_of_lt hc)
    · rw [insertDesc, if_neg hc]
      refine List.pairwise_cons.mpr ⟨?_, ih hqs⟩
      intro b hb
      rcases (mem_insertDesc b r qs).mp hb with rfl | hb2
      · exact Nat.le_of_not_lt hc
      · exact hq b hb2

lemma sortDesc_sorted (l : List DonationRequest) :
    (sortDesc l).Pairwise (fun a b => b.createdAt ≤ a.createdAt) := by
  induction l with
  | nil => simp [sortDesc]
  | cons r rs ih => exact insertDesc_sorted r (sortDesc rs) ih

lemma page_window_len (S N : Nat) (hS : 0 < S) (hN : 0 < N) :
    min S (N - S * ((N + S - 1) / S - 1))
      = if N % S = 0 then S else N % S := by
  have hdm := Nat.div_add_mod N S
  have hrlt : N % S < S := Nat.mod_lt _ hS
  by_cases hr : N % S = 0
  · have hq1 : 1 ≤ N / S := by
      rcases Nat.eq_zero_or_pos (N / S) with h0 | h1
      · rw [h0, Nat.mul_zero] at hdm
        omega
      · exact h1
    have hceil : (N + S - 1) / S = N / S := by
      have he : N + S - 1 = (S - 1) + S * (N / S) := by omega
      rw [he, Nat.add_mul_div_left _ _ hS, Nat.div_eq_of_lt (by omega)]
      omega
    rw [hceil, if_pos hr]
    have h2 : S * (N / S) = S * (N / S - 1) + S := by
      have h3 : N / S = (N / S - 1) + 1 := by omega
      calc S * (N / S) = S * ((N / S - 1) + 1) := by rw [← h3]
      _ = S * (N / S - 1) + S := by rw [Nat.mul_succ]
    have hsub : N - S * (N / S - 1) = S := by omega
    rw [hsub, Nat.min_self]
  · have hceil : (N + S - 1) / S = N / S + 1 := by
      have h4 : S * (N / S + 1) = S * (N / S) + S := by rw [Nat.mul_succ]
      have he : N + S - 1 = (N % S - 1) + S * (N / S + 1) := by omega
      rw [he, Nat.add_mul_div_left _ _ hS, Nat.div_eq_of_lt (by omega)]
      omega
    rw [hceil, if_neg hr]
    have h5 : N / S + 1 - 1 = N / S := Nat.add_sub_cancel _ _
    have hsub : N - S * (N / S + 1 - 1) = N % S := by
      rw [h5]
      omega
    rw [hsub]
    exact Nat.min_eq_right (Nat.le_of_lt hrlt)

/-! ## Claim theorems: pagination (C7) -/

/-- **C7** (amended, for the `P0` handler): `GET /my-requests` returns
a `total` computed with the same requester filter as the page and
independent of the requested page; the page itself is sorted by
creation time descending, contains only the caller's requests, and has
length `min size (N - size x (page - 1))` for a filter matching `N`
documents — in particular, on the last page `⌈N / size⌉` it holds
`N mod size` entries (or a full `size` when `size` divides `N`). -/
theorem myRequests_spec (st : List DonationRequest) (email : String)
    (page size : Nat) :
    ((myRequests st email page size).2
      = (st.filter (fun r => r.requesterEmail == email)).length)
    ∧ (∀ p2, (myRequests st email p2 size).2
        = (myRequests st email page size).2)
    ∧ (myRequests st email page size).1.Pairwise
        (fun a b => b.createdAt ≤ a.createdAt)
    ∧ (∀ r ∈ (myRequests st email page size).1, r.requesterEmail = email)
    ∧ ((myRequests st email page size).1.length
        = min size ((st.filter (fun r => r.requesterEmail == email)).length
            - size * (page - 1)))
    ∧ (0 < size →
        0 < (st.filter (fun r => r.requesterEmail == email)).length →
        page = ((st.filter (fun r => r.requesterEmail == email)).length
            + size - 1) / size →
        (myRequests st email page size).1.length
          = if (st.filter (fun r => r.requesterEmail == email)).length
                % size = 0
            then size
            else (st.filter (fun r => r.requesterEmail == email)).length
                % size) := by
  have hlen : (myRequests st email page size).1.length
      = min size ((st.filter (fun r => r.requesterEmail == email)).length
          - size * (page - 1)) := by
    show (((sortDesc (st.filter (fun r => r.requesterEmail == email))).drop
        (size * (page - 1))).take size).length = _
    rw [List.length_take, List.length_drop,
      (sortDesc_perm (st.filter (fun r => r.requesterEmail == email))).length_eq]
  refine ⟨rfl, fun p2 => rfl, ?_, ?_, hlen, ?_⟩
  · have hsub : List.Sublist
        (((sortDesc (st.filter (fun r => r.requesterEmail == email))).drop
          (size * (page - 1))).take size)
        (sortDesc (st.filter (fun r => r.requesterEmail == email))) :=
      (List.take_sublist _ _).trans (List.drop_sublist _ _)
    exact (sortDesc_sorted _).sublist hsub
  · intro r hr
    have h1 : r ∈ sortDesc (st.filter (fun q => q.requesterEmail == email)) :=
      List.mem_of_mem_drop (List.mem_of_mem_take hr)
    have h2 : r ∈ st.filter (fun q => q.requesterEmail == email) :=
      (sortDesc_perm _).mem_iff.mp h1
    have h3 := (List.mem_filter.mp h2).2
    simpa [beq_iff_eq] using h3
  · intro hS hN hpage
    rw [hlen, hpage]
    exact page_window_len size _ hS hN

/-- One of Carol's requests, created at time 1. -/
def reqC1 : DonationRequest :=
  { rid := 11, requesterEmail := "carol@x.com", bloodGroup := "B+"
    district := "Sylhet", upazila := "Beanibazar", status := "pending"
    donorName := none, donorEmail := none, createdAt := 1
    donatedAt := none }

/-- Another of Carol's requests, created at time 5 and inserted after
`reqC1`. -/
def reqC2 : DonationRequest :=
  { rid := 12, requesterEmail := "carol@x.com", bloodGroup := "O-"
    district := "Sylhet", upazila := "Beanibazar", status := "pending"
    donorName := none, donorEmail := none, createdAt := 5
    donatedAt := none }

/-- A third request of Carol's, created at time 3. -/
def reqC3 : DonationRequest :=
  { rid := 13, requesterEmail := "carol@x.com", bloodGroup := "AB+"
    district := "Sylhet", upazila := "Beanibazar", status := "pending"
    donorName := none, donorEmail := none, createdAt := 3
    donatedAt := none }

/-- Witness for **C7** (amended): three of Carol's requests with page
size 2 — the last page, page `⌈3 / 2⌉ = 2`, holds exactly
`3 mod 2 = 1` entry. -/
theorem myRequests_spec_witness :
    (myRequests [reqC1, reqC2, reqC3] "carol@x.com" 2 2).1.length
      = if ([reqC1, reqC2, reqC3].filter
            (fun r => r.requesterEmail == "carol@x.com")).length % 2 = 0
        then 2
        else ([reqC1, reqC2, reqC3].filter
            (fun r => r.requesterEmail == "carol@x.com")).length % 2 :=
  (myRequests_spec [reqC1, reqC2, reqC3] "carol@x.com" 2 2).2.2.2.2.2
    (by decide) (by decide) (by decide)

/-- Counterexample for **C7** as stated: the `V1` variant of
`GET /my-requests` issues no sort, so Carol's page comes back in
insertion order `[reqC1, reqC2]` — not sorted by creation time
descending (`reqC1` is older) the way the `P0` handler returns it. -/
theorem myRequests_v1_refuted :
    (myRequests_v1 [reqC1, reqC2] "carol@x.com" 1 10).1 = [reqC1, reqC2]
    ∧ ¬ (myRequests_v1 [reqC1, reqC2] "carol@x.com" 1 10).1.Pairwise
        (fun a b => b.createdAt ≤ a.createdAt)
    ∧ reqC1.createdAt < reqC2.createdAt
    ∧ (myRequests [reqC1, reqC2] "carol@x.com" 1 10).1 = [reqC2, reqC1] := by
  decide

/-! ## Claim theorems: public search (C9) -/

/-- Counterexample for **C9** as stated: searching with district
`" Dhaka "` misses the stored request whose district is `"Dhaka"`, even
though the trimmed query value matches — only the blood-group field is
trimmed in the `index.js` handler.  The `P0` handler trims nothing:
even a blood-group value of `" A+ "` fails to match the stored
`"A+"`. -/
theorem searchRequests_trim_refuted :
    searchRequests [reqPending] none (some " Dhaka ") none = []
    ∧ strTrim " Dhaka " = reqPending.district
    ∧ searchRequests_p0 [reqPending] (some " A+ ") none none = []
    ∧ strTrim " A+ " = reqPending.bloodGroup := by
  decide

/-- **C9** (amended): `GET /search-requests` (the `index.js` handler)
matches a request exactly when every truthy filter field agrees with
the corresponding stored field by exact string equality, where the
blood-group value — and only it — is first trimmed of surrounding
whitespace; an absent or empty field imposes no constraint. -/
theorem searchRequests_spec (st : List DonationRequest)
    (bg d u : Option String) (r : DonationRequest) :
    r ∈ searchRequests st bg d u
      ↔ r ∈ st
        ∧ (truthy bg = true → r.bloodGroup = strTrim (bg.getD ""))
        ∧ (truthy d = true → r.district = d.getD "")
        ∧ (truthy u = true → r.upazila = u.getD "") := by
  unfold searchRequests
  rw [List.mem_filter]
  cases hbg : truthy bg <;> cases hd : truthy d <;> cases hu : truthy u <;>
    simp [hbg, hd, hu, beq_iff_eq, and_assoc]

/-- Witness for **C9** (amended) at a concrete query: the request with
blood group `"A+"` is matched by the blood-group filter `" A+ "`
(trimmed), with district and upazila unconstrained. -/
theorem searchRequests_spec_witness :
    reqPending ∈ searchRequests [reqPending] (some " A+ ") none none
      ↔ reqPending ∈ [reqPending]
        ∧ (truthy (some " A+ ") = true →
            reqPending.bloodGroup = strTrim ((some " A+ ").getD ""))
        ∧ (truthy (none : Option String) = true →
            reqPending.district = (none : Option String).getD "")
        ∧ (truthy (none : Option String) = true →
            reqPending.upazila = (none : Option String).getD "") :=
  searchRequests_spec [reqPending] (some " A+ ") none none reqPending

end Backend
